import Mathlib

/-!
Formal model of the BBC News pipeline comparison harness
(`bbc_pipeline_comparison.py`): the per-combination executor
`train_pipeline`, the grid runner `compare_pipelines`, and the
descending-by-accuracy ranking used by `generate_visualizations`.

External library stages (sklearn vectorizers, reducers, classifiers and
metric functions) are modelled as black boxes: each call either returns a
value together with the wall-clock seconds the call consumed (rationals
standing for Python floats), or raises a Python exception, modelled as
`Except String`.  Pure harness-side work (matrix conversions, dictionary
updates) is assigned zero elapsed time.
-/

namespace BBCPipeline

/-- Model of a feature matrix as handled by the harness.  `sparse` records
whether the value is a scipy sparse matrix (which has a `toarray` method);
`cols` is `shape[1]`; `rows` holds the numeric entries. -/
structure Mat where
  sparse : Bool
  cols : Nat
  rows : List (List ℚ)
deriving DecidableEq

/-- `X.toarray()`: densify a sparse matrix.  A dense numpy array has no
`toarray` attribute, so the call raises on an already dense matrix. -/
def Mat.toarray (m : Mat) : Except String Mat :=
  if m.sparse then Except.ok { m with sparse := false }
  else Except.error "AttributeError: toarray"

/-- `np.abs`: entrywise absolute value (shape and sparsity preserved). -/
def npAbs (m : Mat) : Mat :=
  { m with rows := m.rows.map (fun row => row.map (fun x => |x|)) }

/-- All entries of the matrix are nonnegative. -/
def Mat.nonneg (m : Mat) : Prop :=
  ∀ row ∈ m.rows, ∀ x ∈ row, 0 ≤ x

instance (m : Mat) : Decidable m.nonneg := by
  unfold Mat.nonneg; infer_instance

/-- The dense nonnegative conversion the source applies for the Chi²
reducer: `np.abs(X.toarray())`. -/
def denseAbs (m : Mat) : Except String Mat := do
  let d ← m.toarray
  Except.ok (npAbs d)

/-- A feature extractor (e.g. `TfidfVectorizer`): a black box fitted once
per combination.  `fitTransform` models `fit_transform` on the train
texts, `transform` models the subsequent `transform` of the test texts by
the fitted object.  Each call yields the resulting matrix and the
wall-clock seconds it consumed. -/
structure Extractor where
  fitTransform : List String → Except String (Mat × ℚ)
  transform : List String → Except String (Mat × ℚ)

/-- A dimensionality reducer.  `fitTransformXY` models
`fit_transform(X, y)` (the call shape used for the Chi² selector),
`fitTransformX` models `fit_transform(X)` (the call shape used for every
other reducer), and `transform` models the subsequent `transform` of the
test matrix by the fitted object. -/
structure Reducer where
  fitTransformXY : Mat → List String → Except String (Mat × ℚ)
  fitTransformX : Mat → Except String (Mat × ℚ)
  transform : Mat → Except String (Mat × ℚ)

/-- A classifier: `fit` on train features and labels (yielding the seconds
the call consumed), then `predict` on test features (yielding the
predicted labels and the seconds consumed). -/
structure Classifier where
  fit : Mat → List String → Except String ℚ
  predict : Mat → Except String (List String × ℚ)

/-- The sklearn metric functions used at the end of a successful run,
as black boxes over (true labels, predicted labels). -/
structure MetricsLib where
  accuracy_score : List String → List String → Except String ℚ
  precision_recall_fscore_support :
    List String → List String → Except String (ℚ × ℚ × ℚ)
  confusion_matrix : List String → List String → Except String (List (List Nat))

/-- The result dictionary built by `train_pipeline`.  Optional fields model
dictionary keys that are present only on some code paths: the identity
keys are set up front, the metric/timing keys only by the success-path
`results.update`, and `error` only by the exception handler.  `status` is
written by both paths before the dictionary is returned. -/
structure RunRecord where
  pipeline : String
  extractor : String
  reducer : String
  classifier : String
  status : String
  accuracy : Option ℚ := none
  precision : Option ℚ := none
  recall' : Option ℚ := none
  f1_score : Option ℚ := none
  train_time : Option ℚ := none
  inference_ms : Option ℚ := none
  features_before : Option Nat := none
  features_after : Option Nat := none
  confusion_matrix : Option (List (List Nat)) := none
  error : Option String := none
deriving DecidableEq

/-- Step 2 of `train_pipeline` (source lines 100-115): dimensionality
reduction.  With a reducer present and named `Chi²` both matrices are
first converted by `np.abs(·.toarray())` and the reducer is fitted with
the train labels; any other reducer receives the matrices untouched and
is fitted without labels.  With no reducer (`None`), the matrices pass
through unchanged and the elapsed time of this stage is zero.  Returns the new
train matrix, the new test matrix, and `reduce_time`. -/
def reduceStage (reducer : Option Reducer) (reducer_name : String)
    (X_train_vec X_test_vec : Mat) (y_train : List String) :
    Except String (Mat × Mat × ℚ) :=
  match reducer with
  | some r =>
    if reducer_name = "Chi²" then do
      let Xtr ← X_train_vec.toarray
      let Xtr := npAbs Xtr
      let Xte ← X_test_vec.toarray
      let Xte := npAbs Xte
      let p1 ← r.fitTransformXY Xtr y_train
      let p2 ← r.transform Xte
      Except.ok (p1.1, p2.1, p1.2 + p2.2)
    else do
      let p1 ← r.fitTransformX X_train_vec
      let p2 ← r.transform X_test_vec
      Except.ok (p1.1, p2.1, p1.2 + p2.2)
  | none => Except.ok (X_train_vec, X_test_vec, 0)

/-- The classifier-specific input conversion in step 3 of `train_pipeline`
(source lines 121-126): for `Naive Bayes`, if the train matrix is sparse
(the `hasattr` check for `toarray`) both matrices are densified, and then
both are replaced by their absolute values; any other classifier receives
the matrices untouched. -/
def nbConvert (classifier_name : String) (X_train_vec X_test_vec : Mat) :
    Except String (Mat × Mat) :=
  if classifier_name = "Naive Bayes" then do
    let p ←
      if X_train_vec.sparse then do
        let a ← X_train_vec.toarray
        let b ← X_test_vec.toarray
        Except.ok (a, b)
      else Except.ok (X_train_vec, X_test_vec)
    Except.ok (npAbs p.1, npAbs p.2)
  else Except.ok (X_train_vec, X_test_vec)

/-- The payload `results.update(...)` receives on the success path. -/
structure SuccessData where
  accuracy : ℚ
  precision : ℚ
  recall' : ℚ
  f1 : ℚ
  train_time : ℚ
  inference_ms : ℚ
  features_before : Nat
  features_after : Nat
  cm : List (List Nat)
deriving DecidableEq

/-- The body of the `try` block of `train_pipeline` (source lines 98-155):
extraction, reduction, classification, prediction, and metric computation.
Any raised exception is an `Except.error` carrying its message.  The
per-sample inference latency divides by `len(y_test)`, which raises
`ZeroDivisionError` on an empty test split. -/
def trainBody (X_train X_test y_train y_test : List String)
    (extractor : Extractor)
    (reducer : Option Reducer) (reducer_name : String)
    (classifier : Classifier) (classifier_name : String)
    (lib : MetricsLib) : Except String SuccessData := do
  let pf ← extractor.fitTransform X_train
  let X_train_vec := pf.1
  let pt ← extractor.transform X_test
  let X_test_vec := pt.1
  let extract_time := pf.2 + pt.2
  let features_before := X_train_vec.cols
  let pr ← reduceStage reducer reducer_name X_train_vec X_test_vec y_train
  let reduce_time := pr.2.2
  let features_after := pr.1.cols
  let pn ← nbConvert classifier_name pr.1 pr.2.1
  let train_time ← classifier.fit pn.1 y_train
  let pp ← classifier.predict pn.2
  let y_pred := pp.1
  if y_test.length = 0 then
    Except.error "ZeroDivisionError: float division by zero"
  else do
    let infer_time := pp.2 / (y_test.length : ℚ) * 1000
    let accuracy ← lib.accuracy_score y_test y_pred
    let pm ← lib.precision_recall_fscore_support y_test y_pred
    let cm ← lib.confusion_matrix y_test y_pred
    Except.ok
      { accuracy := accuracy, precision := pm.1, recall' := pm.2.1, f1 := pm.2.2,
        train_time := extract_time + reduce_time + train_time,
        inference_ms := infer_time,
        features_before := features_before, features_after := features_after,
        cm := cm }

/-- `train_pipeline` (source lines 72-161): build the identity dictionary,
run the `try` body, and either merge in the success payload with
`status = success` or record `status = failed` with the exception
text.  (`status` is absent from the initial dictionary and written by
both paths; the model initialises it to `""`, which is always
overwritten.) -/
def train_pipeline (X_train X_test y_train y_test : List String)
    (extractor : Extractor) (extractor_name : String)
    (reducer : Option Reducer) (reducer_name : String)
    (classifier : Classifier) (classifier_name : String)
    (lib : MetricsLib) : RunRecord :=
  let pipeline_name := extractor_name ++ " → " ++ reducer_name ++ " → " ++ classifier_name
  let base : RunRecord :=
    { pipeline := pipeline_name, extractor := extractor_name,
      reducer := reducer_name, classifier := classifier_name, status := "" }
  match trainBody X_train X_test y_train y_test extractor
      reducer reducer_name classifier classifier_name lib with
  | Except.ok d =>
      { base with
        accuracy := some d.accuracy, precision := some d.precision,
        recall' := some d.recall', f1_score := some d.f1,
        train_time := some d.train_time, inference_ms := some d.inference_ms,
        features_before := some d.features_before,
        features_after := some d.features_after,
        confusion_matrix := some d.cm, status := "success" }
  | Except.error e => { base with status := "failed", error := some e }

/-- The grid loop of `compare_pipelines` (source lines 213-226): nested
iteration over extractor variants (outermost, in table order), then
reducer variants, then classifier variants, executing `train_pipeline`
for each triple and collecting every result dictionary into
`all_results` in execution order.  (Cloning an unfitted estimator yields
an equivalent fresh object, so `clone` is the identity here.) -/
def run_all (X_train X_test y_train y_test : List String)
    (extractors : List (Extractor × String))
    (reducers : List (Option Reducer × String))
    (classifiers : List (Classifier × String))
    (lib : MetricsLib) : List RunRecord :=
  extractors.flatMap fun ext =>
    reducers.flatMap fun red =>
      classifiers.map fun clf =>
        train_pipeline X_train X_test y_train y_test
          ext.1 ext.2 red.1 red.2 clf.1 clf.2 lib

/-- The tail of `compare_pipelines` (source lines 228-235): filter
`all_results` down to the records whose status equals `success` and return
them together with the test labels.  Failed records are not returned. -/
def compare_pipelines (X_train X_test y_train y_test : List String)
    (extractors : List (Extractor × String))
    (reducers : List (Option Reducer × String))
    (classifiers : List (Classifier × String))
    (lib : MetricsLib) : List RunRecord × List String :=
  let all_results := run_all X_train X_test y_train y_test extractors reducers classifiers lib
  let successful := all_results.filter (fun r => r.status == "success")
  (successful, y_test)

/-- The sort key of the `sorted(results, key=...)` call, which sorts by negated accuracy:
the recorded accuracy (the records ranked by `generate_visualizations`
are the successful ones, whose `accuracy` field is always present). -/
def accKey (r : RunRecord) : ℚ := r.accuracy.getD 0

/-- `a` may be placed before `b` in a descending-by-accuracy ranking. -/
def accDescRel (a b : RunRecord) : Prop := accKey b ≤ accKey a

instance : DecidableRel accDescRel :=
  fun a b => inferInstanceAs (Decidable (accKey b ≤ accKey a))

instance : IsTotal RunRecord accDescRel :=
  ⟨fun a b => le_total (accKey b) (accKey a)⟩

instance : IsTrans RunRecord accDescRel :=
  ⟨fun _ _ _ hab hbc => le_trans hbc hab⟩

/-- The ranking produced by `sorted(results, key=...)` on negated accuracy (source
lines 252-260): the Python builtin `sorted` is a stable sort, and the unique stable
sort for a total preorder is computed by insertion sort with
insert-before-the-first-not-greater placement, which is exactly
`List.insertionSort`. -/
def rankByAccuracyDesc (l : List RunRecord) : List RunRecord :=
  l.insertionSort accDescRel

/-! ### Helper lemmas -/

theorem exceptOk_bind {α β : Type} (a : α) (f : α → Except String β) :
    (Except.ok a >>= f) = f a := rfl

theorem exceptError_bind {α β : Type} (e : String) (f : α → Except String β) :
    ((Except.error e : Except String α) >>= f) = Except.error e := rfl

theorem exbind_eq_ok {α β : Type} {x : Except String α} {f : α → Except String β} {b : β} :
    (x >>= f) = Except.ok b ↔ ∃ a, x = Except.ok a ∧ f a = Except.ok b := by
  cases x with
  | ok a => simp [exceptOk_bind]
  | error e => simp [exceptError_bind]

/-- On an erroring `try` body, `train_pipeline` returns the identity
fields, `status = failed`, and the captured message; nothing else. -/
theorem train_pipeline_error_eq
    (X_train X_test y_train y_test : List String)
    (extractor : Extractor) (extractor_name : String)
    (reducer : Option Reducer) (reducer_name : String)
    (classifier : Classifier) (classifier_name : String)
    (lib : MetricsLib) (msg : String)
    (h : trainBody X_train X_test y_train y_test extractor
        reducer reducer_name classifier classifier_name lib = Except.error msg) :
    train_pipeline X_train X_test y_train y_test extractor extractor_name
        reducer reducer_name classifier classifier_name lib =
      { pipeline := extractor_name ++ " → " ++ reducer_name ++ " → " ++ classifier_name,
        extractor := extractor_name, reducer := reducer_name,
        classifier := classifier_name, status := "failed", error := some msg } := by
  unfold train_pipeline
  rw [h]

/-- On a succeeding `try` body, `train_pipeline` returns the identity
fields, every metric and timing field, and `status = success`. -/
theorem train_pipeline_ok_eq
    (X_train X_test y_train y_test : List String)
    (extractor : Extractor) (extractor_name : String)
    (reducer : Option Reducer) (reducer_name : String)
    (classifier : Classifier) (classifier_name : String)
    (lib : MetricsLib) (d : SuccessData)
    (h : trainBody X_train X_test y_train y_test extractor
        reducer reducer_name classifier classifier_name lib = Except.ok d) :
    train_pipeline X_train X_test y_train y_test extractor extractor_name
        reducer reducer_name classifier classifier_name lib =
      { pipeline := extractor_name ++ " → " ++ reducer_name ++ " → " ++ classifier_name,
        extractor := extractor_name, reducer := reducer_name,
        classifier := classifier_name, status := "success",
        accuracy := some d.accuracy, precision := some d.precision,
        recall' := some d.recall', f1_score := some d.f1,
        train_time := some d.train_time, inference_ms := some d.inference_ms,
        features_before := some d.features_before,
        features_after := some d.features_after,
        confusion_matrix := some d.cm } := by
  unfold train_pipeline
  rw [h]

/-- Full characterization of the success path: when every stage call
succeeds with the given outputs and elapsed times and the test split is
nonempty, `train_pipeline` returns the success record whose single
`train_time` is the sum of the extraction, reduction, and fit times. -/
theorem train_pipeline_success_eq
    (Xtr Xte ytr yte : List String) (ext : Extractor) (en : String)
    (red : Option Reducer) (rn : String) (clf : Classifier) (cn : String)
    (lib : MetricsLib) (A B A2 B2 A3 B3 : Mat) (t1 t2 tr tf tp : ℚ)
    (yp : List String) (acc p rc f1v : ℚ) (cm : List (List Nat))
    (h1 : ext.fitTransform Xtr = Except.ok (A, t1))
    (h2 : ext.transform Xte = Except.ok (B, t2))
    (h3 : reduceStage red rn A B ytr = Except.ok (A2, B2, tr))
    (h4 : nbConvert cn A2 B2 = Except.ok (A3, B3))
    (h5 : clf.fit A3 ytr = Except.ok tf)
    (h6 : clf.predict B3 = Except.ok (yp, tp))
    (h7 : yte ≠ [])
    (h8 : lib.accuracy_score yte yp = Except.ok acc)
    (h9 : lib.precision_recall_fscore_support yte yp = Except.ok (p, rc, f1v))
    (h10 : lib.confusion_matrix yte yp = Except.ok cm) :
    train_pipeline Xtr Xte ytr yte ext en red rn clf cn lib =
      { pipeline := en ++ " → " ++ rn ++ " → " ++ cn,
        extractor := en, reducer := rn, classifier := cn, status := "success",
        accuracy := some acc, precision := some p, recall' := some rc,
        f1_score := some f1v,
        train_time := some (t1 + t2 + tr + tf),
        inference_ms := some (tp / (yte.length : ℚ) * 1000),
        features_before := some A.cols, features_after := some A2.cols,
        confusion_matrix := some cm, error := none } := by
  have hlen : ¬ (yte.length = 0) := fun h0 => h7 (List.length_eq_zero.1 h0)
  have hbody : trainBody Xtr Xte ytr yte ext red rn clf cn lib = Except.ok
      { accuracy := acc, precision := p, recall' := rc, f1 := f1v,
        train_time := t1 + t2 + tr + tf,
        inference_ms := tp / (yte.length : ℚ) * 1000,
        features_before := A.cols, features_after := A2.cols, cm := cm } := by
    unfold trainBody
    rw [h1, exceptOk_bind]
    try dsimp only
    rw [h2, exceptOk_bind]
    try dsimp only
    rw [h3, exceptOk_bind]
    try dsimp only
    rw [h4, exceptOk_bind]
    try dsimp only
    rw [h5, exceptOk_bind]
    try dsimp only
    rw [h6, exceptOk_bind]
    try dsimp only
    rw [if_neg hlen, h8, exceptOk_bind]
    try dsimp only
    rw [h9, exceptOk_bind]
    try dsimp only
    rw [h10, exceptOk_bind]
  exact train_pipeline_ok_eq Xtr Xte ytr yte ext en red rn clf cn lib _ hbody

/-- Every record `train_pipeline` returns carries status `success` or
`failed`. -/
theorem train_pipeline_status
    (X_train X_test y_train y_test : List String)
    (extractor : Extractor) (extractor_name : String)
    (reducer : Option Reducer) (reducer_name : String)
    (classifier : Classifier) (classifier_name : String)
    (lib : MetricsLib) :
    (train_pipeline X_train X_test y_train y_test extractor extractor_name
        reducer reducer_name classifier classifier_name lib).status = "success" ∨
    (train_pipeline X_train X_test y_train y_test extractor extractor_name
        reducer reducer_name classifier classifier_name lib).status = "failed" := by
  cases h : trainBody X_train X_test y_train y_test extractor
      reducer reducer_name classifier classifier_name lib with
  | ok d =>
      left
      rw [train_pipeline_ok_eq _ _ _ _ _ _ _ _ _ _ _ d h]
  | error msg =>
      right
      rw [train_pipeline_error_eq _ _ _ _ _ _ _ _ _ _ _ msg h]

/-- A list of constant-length blocks has length `outer * block`. -/
theorem flatMap_const_length {α β : Type _} (l : List α) (f : α → List β) (k : ℕ)
    (hk : ∀ a ∈ l, (f a).length = k) :
    (l.flatMap f).length = l.length * k := by
  induction l with
  | nil => simp
  | cons a t ih =>
    have ha := hk a (List.mem_cons_self a t)
    have ht := ih fun x hx => hk x (List.mem_cons_of_mem a hx)
    simp only [List.flatMap_cons, List.length_append, ha, ht, List.length_cons]
    ring

/-- Indexing into a concatenation of constant-length blocks: element `i`
lives in block `i / k` at offset `i % k`. -/
theorem flatMap_const_getElem? {α β : Type _} (l : List α) (f : α → List β) (k : ℕ)
    (hk : ∀ a ∈ l, (f a).length = k) (i : ℕ) (hi : i < l.length * k) :
    (l.flatMap f)[i]? = l[i / k]?.bind fun a => (f a)[i % k]? := by
  induction l generalizing i with
  | nil => simp at hi
  | cons a t ih =>
    have ha := hk a (List.mem_cons_self a t)
    rcases Nat.lt_or_ge i k with h | h
    · rw [List.flatMap_cons, List.getElem?_append_left (by rw [ha]; exact h),
        Nat.div_eq_of_lt h, Nat.mod_eq_of_lt h, List.getElem?_cons_zero]
      rfl
    · have hk0 : 0 < k := by
        rcases Nat.eq_zero_or_pos k with rfl | hpos
        · simp at hi
        · exact hpos
      have hi' : i - k < t.length * k := by
        have hlen : (a :: t).length * k = t.length * k + k := by
          simp [List.length_cons]; ring
        omega
      rw [List.flatMap_cons, List.getElem?_append_right (by rw [ha]; exact h), ha,
        ih (fun x hx => hk x (List.mem_cons_of_mem a hx)) (i - k) hi',
        Nat.div_eq_sub_div hk0 h, Nat.mod_eq_sub_mod h, List.getElem?_cons_succ]

/-- Every block of the grid for one extractor has `|R| * |C|` records, and
each inner block for one reducer has `|C|` records. -/
theorem run_all_length (X_train X_test y_train y_test : List String)
    (extractors : List (Extractor × String))
    (reducers : List (Option Reducer × String))
    (classifiers : List (Classifier × String))
    (lib : MetricsLib) :
    (run_all X_train X_test y_train y_test extractors reducers classifiers lib).length =
      extractors.length * reducers.length * classifiers.length := by
  unfold run_all
  rw [flatMap_const_length _ _ (reducers.length * classifiers.length), mul_assoc]
  intro e _
  rw [flatMap_const_length _ _ classifiers.length]
  intro r _
  exact List.length_map _ _

/-- Membership in the grid output is exactly being the executed record of
some triple from the three tables. -/
theorem mem_run_all {rec : RunRecord} (X_train X_test y_train y_test : List String)
    (extractors : List (Extractor × String))
    (reducers : List (Option Reducer × String))
    (classifiers : List (Classifier × String))
    (lib : MetricsLib) :
    rec ∈ run_all X_train X_test y_train y_test extractors reducers classifiers lib ↔
      ∃ e ∈ extractors, ∃ r ∈ reducers, ∃ c ∈ classifiers,
        rec = train_pipeline X_train X_test y_train y_test
          e.1 e.2 r.1 r.2 c.1 c.2 lib := by
  unfold run_all
  simp only [List.mem_flatMap, List.mem_map]
  constructor
  · rintro ⟨e, he, r, hr, c, hc, rfl⟩
    exact ⟨e, he, r, hr, c, hc, rfl⟩
  · rintro ⟨e, he, r, hr, c, hc, rfl⟩
    exact ⟨e, he, r, hr, c, hc, rfl⟩

instance exceptDecidableEq {ε α : Type _} [DecidableEq ε] [DecidableEq α] :
    DecidableEq (Except ε α) := fun x y =>
  match x, y with
  | Except.ok a, Except.ok b =>
      if h : a = b then isTrue (by rw [h])
      else isFalse (by intro hc; injection hc; contradiction)
  | Except.error e, Except.error f =>
      if h : e = f then isTrue (by rw [h])
      else isFalse (by intro hc; injection hc; contradiction)
  | Except.ok _, Except.error _ => isFalse (fun hc => Except.noConfusion hc)
  | Except.error _, Except.ok _ => isFalse (fun hc => Except.noConfusion hc)

/-! ### Concrete fixtures used by witnesses and counterexamples -/

/-- A small sparse train feature matrix. -/
def mTr : Mat := ⟨true, 3, [[1, -2, 3], [4, 5, -6]]⟩

/-- A small sparse test feature matrix. -/
def mTe : Mat := ⟨true, 3, [[7, -8, 9]]⟩

def cXtr : List String := ["t1", "t2"]
def cXte : List String := ["s1"]
def cytr : List String := ["a", "b"]
def cyte : List String := ["a"]

/-- An extractor whose calls succeed, taking 1s and 2s. -/
def extOK : Extractor :=
  ⟨fun _ => Except.ok (mTr, 1), fun _ => Except.ok (mTe, 2)⟩

/-- An extractor whose `fit_transform` raises. -/
def extBad : Extractor :=
  ⟨fun _ => Except.error "boom", fun _ => Except.error "boom"⟩

/-- A classifier whose calls succeed, fitting in 3s and predicting in 4s. -/
def clfOK : Classifier :=
  ⟨fun _ _ => Except.ok 3, fun _ => Except.ok (["a"], 4)⟩

/-- A reducer acting as the identity, each call taking 1s. -/
def redId : Reducer :=
  ⟨fun m _ => Except.ok (m, 1), fun m => Except.ok (m, 1), fun m => Except.ok (m, 1)⟩

/-- Metric functions returning fixed values. -/
def mlibOK : MetricsLib :=
  ⟨fun _ _ => Except.ok (9/10), fun _ _ => Except.ok (1/2, 1/3, 1/4),
   fun _ _ => Except.ok [[1, 0], [0, 1]]⟩

def cE : List (Extractor × String) := [(extOK, "TF-IDF")]
def cEbad : List (Extractor × String) := [(extBad, "BoW")]
def cR : List (Option Reducer × String) := [(none, "None")]
def cC1 : List (Classifier × String) := [(clfOK, "SVM")]
def cC2 : List (Classifier × String) :=
  [(clfOK, "Logistic Regression"), (clfOK, "SVM")]

/-- Extraction takes 1s, classifier fit takes 3s. -/
def extT1 : Extractor :=
  ⟨fun _ => Except.ok (mTr, 1), fun _ => Except.ok (mTe, 0)⟩

/-- Extraction takes 2s, classifier fit takes 2s. -/
def extT2 : Extractor :=
  ⟨fun _ => Except.ok (mTr, 2), fun _ => Except.ok (mTe, 0)⟩

def clfT3 : Classifier :=
  ⟨fun _ _ => Except.ok 3, fun _ => Except.ok (["a"], 4)⟩

def clfT2 : Classifier :=
  ⟨fun _ _ => Except.ok 2, fun _ => Except.ok (["a"], 4)⟩

/-! ### Claim C1 -/

/-- C1: an exception raised anywhere in the fit/transform/predict body of
one combination is caught within that combination: the record is marked
`failed` and carries exactly the captured message alongside the identity
fields (no metric or timing field is set: the omitted optional fields of
the returned literal are all `none`), and the grid still produces one
record per combination of the three tables, so no failure aborts the
run. -/
theorem c1_per_combination_failure_isolated
    (X_train X_test y_train y_test : List String)
    (extractors : List (Extractor × String))
    (reducers : List (Option Reducer × String))
    (classifiers : List (Classifier × String))
    (lib : MetricsLib) :
    ((run_all X_train X_test y_train y_test extractors reducers classifiers lib).length =
      extractors.length * reducers.length * classifiers.length) ∧
    ∀ (extractor : Extractor) (extractor_name : String)
      (reducer : Option Reducer) (reducer_name : String)
      (classifier : Classifier) (classifier_name : String) (msg : String),
      trainBody X_train X_test y_train y_test extractor
          reducer reducer_name classifier classifier_name lib = Except.error msg →
      train_pipeline X_train X_test y_train y_test extractor extractor_name
          reducer reducer_name classifier classifier_name lib =
        { pipeline := extractor_name ++ " → " ++ reducer_name ++ " → " ++ classifier_name,
          extractor := extractor_name, reducer := reducer_name,
          classifier := classifier_name, status := "failed", error := some msg } :=
  ⟨run_all_length X_train X_test y_train y_test extractors reducers classifiers lib,
   fun ext en red rn clf cn msg h =>
     train_pipeline_error_eq X_train X_test y_train y_test ext en red rn clf cn lib msg h⟩

/-- Witness for C1 at a concrete failing extractor. -/
theorem c1_witness :
    train_pipeline cXtr cXte cytr cyte extBad "BoW" none "None" clfOK "SVM" mlibOK =
      { pipeline := "BoW" ++ " → " ++ "None" ++ " → " ++ "SVM",
        extractor := "BoW", reducer := "None", classifier := "SVM",
        status := "failed", error := some "boom" } :=
  (c1_per_combination_failure_isolated cXtr cXte cytr cyte cE cR cC2 mlibOK).2
    extBad "BoW" none "None" clfOK "SVM" "boom" rfl

/-! ### Claim C2 -/

/-- Success and failure records partition any list in which every record
carries one of the two statuses. -/
theorem filter_status_partition (l : List RunRecord)
    (h : ∀ x ∈ l, x.status = "success" ∨ x.status = "failed") :
    (l.filter fun r => r.status == "success").length +
      (l.filter fun r => r.status == "failed").length = l.length := by
  induction l with
  | nil => simp
  | cons a t ih =>
    have ht := ih fun x hx => h x (List.mem_cons_of_mem a hx)
    have hsf : (("success" : String) == "failed") = false := rfl
    have hfs : (("failed" : String) == "success") = false := rfl
    rcases h a (List.mem_cons_self a t) with ha | ha <;>
      simp [List.filter_cons, ha, hsf, hfs, List.length_cons] <;> omega

/-- C2 fails on the code: `compare_pipelines` has no run-limit parameter,
so with a 2-combination space the processed count is 2, not
`min(total, limit)` for the limit 1 a smoke test would request. -/
theorem c2_counterexample :
    ((run_all cXtr cXte cytr cyte cE cR cC2 mlibOK).filter
        fun r => r.status == "success").length +
      ((run_all cXtr cXte cytr cyte cE cR cC2 mlibOK).filter
        fun r => r.status == "failed").length = 2 ∧
    cE.length * cR.length * cC2.length = 2 ∧
    ¬ (2 = min 2 1) := by
  refine ⟨by decide, by decide, by decide⟩

/-- C2 amended: there is no limit mechanism; the number of records with
status `success` plus the number with status `failed` always equals the
full combination-space size, and the successful list `compare_pipelines`
returns is exactly the success-status part. -/
theorem c2_success_plus_failed_eq_total
    (X_train X_test y_train y_test : List String)
    (extractors : List (Extractor × String))
    (reducers : List (Option Reducer × String))
    (classifiers : List (Classifier × String))
    (lib : MetricsLib) :
    ((run_all X_train X_test y_train y_test extractors reducers classifiers lib).filter
        fun r => r.status == "success").length +
      ((run_all X_train X_test y_train y_test extractors reducers classifiers lib).filter
        fun r => r.status == "failed").length =
      extractors.length * reducers.length * classifiers.length ∧
    (compare_pipelines X_train X_test y_train y_test extractors reducers classifiers lib).1 =
      (run_all X_train X_test y_train y_test extractors reducers classifiers lib).filter
        fun r => r.status == "success" := by
  refine ⟨?_, rfl⟩
  rw [filter_status_partition, run_all_length]
  intro x hx
  obtain ⟨e, _, r, _, c, _, rfl⟩ :=
    (mem_run_all X_train X_test y_train y_test extractors reducers classifiers lib).1 hx
  exact train_pipeline_status X_train X_test y_train y_test e.1 e.2 r.1 r.2 c.1 c.2 lib

/-! ### Claim C3 -/

/-- With an empty test split, the `try` body of every combination raises
(at latest the per-sample latency division by `len(y_test)` raises
`ZeroDivisionError`), so it never returns a success payload. -/
theorem trainBody_empty_test (X_train X_test y_train : List String)
    (extractor : Extractor) (reducer : Option Reducer) (reducer_name : String)
    (classifier : Classifier) (classifier_name : String) (lib : MetricsLib)
    (d : SuccessData) :
    trainBody X_train X_test y_train [] extractor
      reducer reducer_name classifier classifier_name lib ≠ Except.ok d := by
  intro h
  unfold trainBody at h
  rw [exbind_eq_ok] at h
  obtain ⟨pf, _, h⟩ := h
  try dsimp only at h
  rw [exbind_eq_ok] at h
  obtain ⟨pt, _, h⟩ := h
  try dsimp only at h
  rw [exbind_eq_ok] at h
  obtain ⟨pr, _, h⟩ := h
  try dsimp only at h
  rw [exbind_eq_ok] at h
  obtain ⟨pn, _, h⟩ := h
  try dsimp only at h
  rw [exbind_eq_ok] at h
  obtain ⟨tfit, _, h⟩ := h
  try dsimp only at h
  rw [exbind_eq_ok] at h
  obtain ⟨pp, _, h⟩ := h
  try dsimp only at h
  simp at h

/-- C3 fails on the code: with an empty test split, `run_all` does not
fail fatally before executing any combination — it executes all 2
combinations and records each as a per-combination failure. -/
theorem c3_counterexample :
    (run_all cXtr [] cytr [] cE cR cC2 mlibOK).length = 2 ∧
    ((run_all cXtr [] cytr [] cE cR cC2 mlibOK).all
      fun r => r.status == "failed") = true := by
  refine ⟨by decide, by decide⟩

/-- C3 amended: the harness performs no corpus validation and `run_all`
has no fatal path (it is a total function).  A corpus problem such as an
empty test split surfaces only as per-combination failures: every
combination still executes and every record is marked `failed`. -/
theorem c3_empty_test_split_nonfatal
    (X_train X_test y_train : List String)
    (extractors : List (Extractor × String))
    (reducers : List (Option Reducer × String))
    (classifiers : List (Classifier × String))
    (lib : MetricsLib) :
    ((run_all X_train X_test y_train [] extractors reducers classifiers lib).length =
      extractors.length * reducers.length * classifiers.length) ∧
    ∀ rec ∈ run_all X_train X_test y_train [] extractors reducers classifiers lib,
      rec.status = "failed" := by
  refine ⟨run_all_length X_train X_test y_train [] extractors reducers classifiers lib, ?_⟩
  intro rec hrec
  obtain ⟨e, _, r, _, c, _, rfl⟩ :=
    (mem_run_all X_train X_test y_train [] extractors reducers classifiers lib).1 hrec
  cases h : trainBody X_train X_test y_train [] e.1 r.1 r.2 c.1 c.2 lib with
  | ok d =>
      exact absurd h
        (trainBody_empty_test X_train X_test y_train e.1 r.1 r.2 c.1 c.2 lib d)
  | error msg =>
      rw [train_pipeline_error_eq X_train X_test y_train [] e.1 e.2 r.1 r.2 c.1 c.2 lib msg h]

/-- Witness for the amended C3 at a concrete configuration. -/
theorem c3_amended_witness :
    (train_pipeline cXtr [] cytr [] extOK "TF-IDF" none "None" clfOK "SVM" mlibOK).status =
      "failed" :=
  (c3_empty_test_split_nonfatal cXtr [] cytr cE cR cC1 mlibOK).2
    (train_pipeline cXtr [] cytr [] extOK "TF-IDF" none "None" clfOK "SVM" mlibOK)
    (List.Mem.head _)

/-! ### Claim C4 -/

/-- C4 fails on the code: with a single combination that fails,
`compare_pipelines` returns an empty result list (plus the test labels) —
the caller receives no failure record and no failure list at all, even
though the run recorded one failed combination internally. -/
theorem c4_counterexample :
    (compare_pipelines cXtr cXte cytr cyte cEbad cR cC1 mlibOK).1 = [] ∧
    (run_all cXtr cXte cytr cyte cEbad cR cC1 mlibOK).length = 1 ∧
    ((run_all cXtr cXte cytr cyte cEbad cR cC1 mlibOK).all
      fun r => r.status == "failed") = true := by
  refine ⟨by decide, by decide, by decide⟩

/-- C4 amended: `compare_pipelines` returns only the records whose status
is `success`, paired with the test labels; every failed record of the run
is excluded from the returned list, and no failure list is returned. -/
theorem c4_only_successes_returned
    (X_train X_test y_train y_test : List String)
    (extractors : List (Extractor × String))
    (reducers : List (Option Reducer × String))
    (classifiers : List (Classifier × String))
    (lib : MetricsLib) :
    ((compare_pipelines X_train X_test y_train y_test extractors reducers classifiers lib).1 =
      (run_all X_train X_test y_train y_test extractors reducers classifiers lib).filter
        fun r => r.status == "success") ∧
    ((compare_pipelines X_train X_test y_train y_test extractors reducers classifiers lib).2 =
      y_test) ∧
    (∀ rec ∈ (compare_pipelines X_train X_test y_train y_test
        extractors reducers classifiers lib).1, rec.status = "success") ∧
    ∀ rec ∈ run_all X_train X_test y_train y_test extractors reducers classifiers lib,
      rec.status = "failed" →
      rec ∉ (compare_pipelines X_train X_test y_train y_test
        extractors reducers classifiers lib).1 := by
  refine ⟨rfl, rfl, ?_, ?_⟩
  · intro rec hrec
    exact eq_of_beq (List.mem_filter.1 hrec).2
  · intro rec _ hfail hmem
    have hs := eq_of_beq (List.mem_filter.1 hmem).2
    rw [hfail] at hs
    exact absurd hs (by decide)

/-- Witness for the amended C4 at a concrete configuration. -/
theorem c4_amended_witness :
    (train_pipeline cXtr cXte cytr cyte extOK "TF-IDF" none "None" clfOK "SVM" mlibOK).status =
      "success" :=
  (c4_only_successes_returned cXtr cXte cytr cyte cE cR cC1 mlibOK).2.2.1
    (train_pipeline cXtr cXte cytr cyte extOK "TF-IDF" none "None" clfOK "SVM" mlibOK)
    (List.Mem.head _)

/-! ### Claim C5 -/

/-- C5: combinations execute in the fixed nested-loop order — extractors
outermost in table order, then reducers, then classifiers innermost — and
records are appended in exactly that order: the grid output has one
record per combination, and its `i`-th record is the executed record of
the `i`-th combination of the nested enumeration, i.e. of extractor
`i / (|R|·|C|)`, reducer `(i / |C|) mod |R|`, and classifier
`i mod |C|`. -/
theorem c5_nested_loop_order (X_train X_test y_train y_test : List String)
    (extractors : List (Extractor × String))
    (reducers : List (Option Reducer × String))
    (classifiers : List (Classifier × String))
    (lib : MetricsLib) :
    ((run_all X_train X_test y_train y_test extractors reducers classifiers lib).length =
      extractors.length * reducers.length * classifiers.length) ∧
    ∀ i : ℕ, i < extractors.length * reducers.length * classifiers.length →
      (run_all X_train X_test y_train y_test extractors reducers classifiers lib)[i]? =
        extractors[i / (reducers.length * classifiers.length)]?.bind fun e =>
          reducers[(i / classifiers.length) % reducers.length]?.bind fun r =>
            classifiers[i % classifiers.length]?.map fun c =>
              train_pipeline X_train X_test y_train y_test
                e.1 e.2 r.1 r.2 c.1 c.2 lib := by
  refine ⟨run_all_length X_train X_test y_train y_test extractors reducers classifiers lib,
    fun i hi => ?_⟩
  have hRCpos : 0 < reducers.length * classifiers.length := by
    rcases Nat.eq_zero_or_pos (reducers.length * classifiers.length) with h0 | hpos
    · rw [mul_assoc, h0, Nat.mul_zero] at hi
      exact absurd hi (Nat.not_lt_zero i)
    · exact hpos
  have hblock : ∀ e ∈ extractors,
      ((reducers.flatMap fun red => classifiers.map fun clf =>
        train_pipeline X_train X_test y_train y_test
          e.1 e.2 red.1 red.2 clf.1 clf.2 lib).length =
        reducers.length * classifiers.length) := by
    intro e _
    rw [flatMap_const_length _ _ classifiers.length]
    intro r _
    exact List.length_map _ _
  unfold run_all
  rw [flatMap_const_getElem? extractors _ (reducers.length * classifiers.length) hblock i
    (by rw [← mul_assoc]; exact hi)]
  cases hE : extractors[i / (reducers.length * classifiers.length)]? with
  | none => rfl
  | some e =>
    simp only [Option.some_bind]
    have hj : i % (reducers.length * classifiers.length) <
        reducers.length * classifiers.length := Nat.mod_lt i hRCpos
    rw [flatMap_const_getElem? reducers _ classifiers.length
      (fun r _ => List.length_map _ _) _ hj]
    have h1 : i % (reducers.length * classifiers.length) / classifiers.length =
        (i / classifiers.length) % reducers.length := by
      rw [mul_comm reducers.length classifiers.length,
        Nat.mod_mul_right_div_self i classifiers.length reducers.length]
    have h2 : i % (reducers.length * classifiers.length) % classifiers.length =
        i % classifiers.length :=
      Nat.mod_mod_of_dvd i (dvd_mul_left classifiers.length reducers.length)
    rw [h1, h2]
    cases hR : reducers[(i / classifiers.length) % reducers.length]? with
    | none => rfl
    | some r =>
      simp only [Option.some_bind]
      rw [List.getElem?_map]

/-- Witness for C5: in a 1 × 1 × 2 grid, record 1 is the record of the
first extractor, first reducer, second classifier. -/
theorem c5_witness :
    (run_all cXtr cXte cytr cyte cE cR cC2 mlibOK)[1]? =
      some (train_pipeline cXtr cXte cytr cyte
        extOK "TF-IDF" none "None" clfOK "SVM" mlibOK) := by
  have h := (c5_nested_loop_order cXtr cXte cytr cyte cE cR cC2 mlibOK).2 1 (by decide)
  rw [h]
  rfl

/-! ### Claim C6 -/

/-- C6: the Chi² reducer receives exactly the dense absolute-value
conversion `np.abs(·.toarray())` of both feature matrices (and is fitted
with the train labels); any other reducer receives the matrices without
conversion.  Naive Bayes receives both matrices densified (when the train
matrix is sparse) and replaced by absolute values before fitting; any
other classifier receives the matrices without conversion.  The
conversion output is always dense and nonnegative. -/
theorem c6_dense_nonneg_conversions :
    (∀ (r : Reducer) (Xtr Xte : Mat) (ytr : List String),
      reduceStage (some r) "Chi²" Xtr Xte ytr = (do
        let a ← denseAbs Xtr
        let b ← denseAbs Xte
        let p1 ← r.fitTransformXY a ytr
        let p2 ← r.transform b
        Except.ok (p1.1, p2.1, p1.2 + p2.2))) ∧
    (∀ (r : Reducer) (rn : String) (Xtr Xte : Mat) (ytr : List String), rn ≠ "Chi²" →
      reduceStage (some r) rn Xtr Xte ytr = (do
        let p1 ← r.fitTransformX Xtr
        let p2 ← r.transform Xte
        Except.ok (p1.1, p2.1, p1.2 + p2.2))) ∧
    (∀ Xtr Xte : Mat, Xtr.sparse = true →
      nbConvert "Naive Bayes" Xtr Xte = (do
        let a ← Xtr.toarray
        let b ← Xte.toarray
        Except.ok (npAbs a, npAbs b))) ∧
    (∀ Xtr Xte : Mat, Xtr.sparse = false →
      nbConvert "Naive Bayes" Xtr Xte = Except.ok (npAbs Xtr, npAbs Xte)) ∧
    (∀ (cn : String) (Xtr Xte : Mat), cn ≠ "Naive Bayes" →
      nbConvert cn Xtr Xte = Except.ok (Xtr, Xte)) ∧
    (∀ m d : Mat, denseAbs m = Except.ok d → d.sparse = false ∧ d.nonneg) := by
  refine ⟨?_, ?_, ?_, ?_, ?_, ?_⟩
  · intro r Xtr Xte ytr
    cases hA : Xtr.toarray <;> cases hB : Xte.toarray <;>
      simp [reduceStage, denseAbs, hA, hB, exceptOk_bind, exceptError_bind]
  · intro r rn Xtr Xte ytr h
    simp [reduceStage, h]
  · intro Xtr Xte hs
    have hA : Xtr.toarray = Except.ok { Xtr with sparse := false } := by
      simp [Mat.toarray, hs]
    cases hB : Xte.toarray <;>
      simp [nbConvert, hs, hA, hB, exceptOk_bind, exceptError_bind]
  · intro Xtr Xte hs
    simp [nbConvert, hs, exceptOk_bind]
  · intro cn Xtr Xte h
    simp [nbConvert, h]
  · intro m d h
    unfold denseAbs Mat.toarray at h
    cases hs : m.sparse
    · rw [hs] at h
      simp only [Bool.false_eq_true, if_neg, if_false] at h
      rw [exceptError_bind] at h
      exact Except.noConfusion h
    · rw [hs] at h
      simp only [if_pos, exceptOk_bind] at h
      have hd : d = npAbs { m with sparse := false } := by
        injection h with h'
        exact h'.symm
      subst hd
      refine ⟨rfl, ?_⟩
      intro row hrow x hx
      simp only [npAbs, List.mem_map] at hrow
      obtain ⟨row0, _, rfl⟩ := hrow
      simp only [List.mem_map] at hx
      obtain ⟨y, _, rfl⟩ := hx
      exact abs_nonneg y

/-- Witness for C6 at concrete matrices, an identity reducer and the
variant names `Chi²`, `PCA`, `Naive Bayes`, `SVM`. -/
theorem c6_witness :
    (reduceStage (some redId) "Chi²" mTr mTe cytr =
      Except.ok (npAbs { mTr with sparse := false },
        npAbs { mTe with sparse := false }, 1 + 1)) ∧
    (reduceStage (some redId) "PCA" mTr mTe cytr = Except.ok (mTr, mTe, 1 + 1)) ∧
    (nbConvert "Naive Bayes" mTr mTe =
      Except.ok (npAbs { mTr with sparse := false }, npAbs { mTe with sparse := false })) ∧
    (nbConvert "Naive Bayes" { mTr with sparse := false } { mTe with sparse := false } =
      Except.ok (npAbs { mTr with sparse := false }, npAbs { mTe with sparse := false })) ∧
    (nbConvert "SVM" mTr mTe = Except.ok (mTr, mTe)) ∧
    ((npAbs { mTr with sparse := false }).sparse = false ∧
      (npAbs { mTr with sparse := false }).nonneg) := by
  refine ⟨?_, ?_, ?_, ?_, ?_, ?_⟩
  · exact (c6_dense_nonneg_conversions.1 redId mTr mTe cytr).trans (by rfl)
  · exact (c6_dense_nonneg_conversions.2.1 redId "PCA" mTr mTe cytr (by decide)).trans (by rfl)
  · exact (c6_dense_nonneg_conversions.2.2.1 mTr mTe rfl).trans (by rfl)
  · exact c6_dense_nonneg_conversions.2.2.2.1 { mTr with sparse := false }
      { mTe with sparse := false } rfl
  · exact c6_dense_nonneg_conversions.2.2.2.2.1 "SVM" mTr mTe (by decide)
  · exact c6_dense_nonneg_conversions.2.2.2.2.2 mTr (npAbs { mTr with sparse := false }) rfl

/-! ### Claim C7 -/

/-- C7: with the `None` reducer sentinel the reduction stage reports an
elapsed time of exactly `0` and hands both feature matrices to the
classification stage unchanged; the only further change before the
classifier is the Naive-Bayes-specific conversion, and for any other
classifier the matrices are passed on untouched. -/
theorem c7_none_reducer_passthrough :
    ∀ (rn : String) (Xtr Xte : Mat) (ytr : List String),
      reduceStage none rn Xtr Xte ytr = Except.ok (Xtr, Xte, 0) ∧
      ∀ cn : String, cn ≠ "Naive Bayes" → nbConvert cn Xtr Xte = Except.ok (Xtr, Xte) := by
  intro rn Xtr Xte ytr
  refine ⟨rfl, ?_⟩
  intro cn h
  simp [nbConvert, h]

/-- Witness for C7 at the concrete `None`/`SVM` combination. -/
theorem c7_witness :
    reduceStage none "None" mTr mTe cytr = Except.ok (mTr, mTe, 0) ∧
    nbConvert "SVM" mTr mTe = Except.ok (mTr, mTe) := by
  have h := c7_none_reducer_passthrough "None" mTr mTe cytr
  exact ⟨h.1, h.2 "SVM" (by decide)⟩

/-! ### Claim C8 -/

/-- C8 fails on the code: the record stores only the summed
`train_time = extract_time + reduce_time + train_time`, so the extraction
and reduction times are not individually retrievable — two runs whose
stages take different times (extraction 1s/fit 3s versus extraction
2s/fit 2s) produce identical records. -/
theorem c8_counterexample :
    train_pipeline cXtr cXte cytr cyte extT1 "TF-IDF" none "None" clfT3 "SVM" mlibOK =
      train_pipeline cXtr cXte cytr cyte extT2 "TF-IDF" none "None" clfT2 "SVM" mlibOK ∧
    extT1.fitTransform cXtr ≠ extT2.fitTransform cXtr ∧
    clfT3.fit mTr cytr ≠ clfT2.fit mTr cytr := by
  have hA := train_pipeline_success_eq cXtr cXte cytr cyte extT1 "TF-IDF" none "None"
    clfT3 "SVM" mlibOK mTr mTe mTr mTe mTr mTe 1 0 0 3 4 ["a"]
    (9/10) (1/2) (1/3) (1/4) [[1, 0], [0, 1]]
    rfl rfl rfl rfl rfl rfl (by decide) rfl rfl rfl
  have hB := train_pipeline_success_eq cXtr cXte cytr cyte extT2 "TF-IDF" none "None"
    clfT2 "SVM" mlibOK mTr mTe mTr mTe mTr mTe 2 0 0 2 4 ["a"]
    (9/10) (1/2) (1/3) (1/4) [[1, 0], [0, 1]]
    rfl rfl rfl rfl rfl rfl (by decide) rfl rfl rfl
  refine ⟨?_, ?_, ?_⟩
  · rw [hA, hB]
    simp only [RunRecord.mk.injEq, Option.some.injEq]
    norm_num
  · intro h
    have h' : (1 : ℚ) = 2 := by
      have := congrArg (fun x => (x.toOption.map Prod.snd).getD 0) h
      simp only [extT1, extT2, Except.toOption, Option.map, Option.getD] at this
      exact this
    norm_num at h'
  · intro h
    have h' : (3 : ℚ) = 2 := by
      have := congrArg (fun x => x.toOption.getD 0) h
      simp only [clfT3, clfT2, Except.toOption, Option.getD] at this
      exact this
    norm_num at h'

/-- C8 amended: a successful record carries the combination identity,
accuracy, weighted precision/recall/F1, the confusion matrix, the feature
counts, the per-sample inference latency, and one single `train_time`
equal to the sum of the extraction, reduction, and classifier-fit elapsed
times; no separate per-stage extraction/reduction/training time is
stored. -/
theorem c8_success_fields_summed_time
    (Xtr Xte ytr yte : List String) (ext : Extractor) (en : String)
    (red : Option Reducer) (rn : String) (clf : Classifier) (cn : String)
    (lib : MetricsLib) (A B A2 B2 A3 B3 : Mat) (t1 t2 tr tf tp : ℚ)
    (yp : List String) (acc p rc f1v : ℚ) (cm : List (List Nat))
    (h1 : ext.fitTransform Xtr = Except.ok (A, t1))
    (h2 : ext.transform Xte = Except.ok (B, t2))
    (h3 : reduceStage red rn A B ytr = Except.ok (A2, B2, tr))
    (h4 : nbConvert cn A2 B2 = Except.ok (A3, B3))
    (h5 : clf.fit A3 ytr = Except.ok tf)
    (h6 : clf.predict B3 = Except.ok (yp, tp))
    (h7 : yte ≠ [])
    (h8 : lib.accuracy_score yte yp = Except.ok acc)
    (h9 : lib.precision_recall_fscore_support yte yp = Except.ok (p, rc, f1v))
    (h10 : lib.confusion_matrix yte yp = Except.ok cm) :
    train_pipeline Xtr Xte ytr yte ext en red rn clf cn lib =
      { pipeline := en ++ " → " ++ rn ++ " → " ++ cn,
        extractor := en, reducer := rn, classifier := cn, status := "success",
        accuracy := some acc, precision := some p, recall' := some rc,
        f1_score := some f1v,
        train_time := some (t1 + t2 + tr + tf),
        inference_ms := some (tp / (yte.length : ℚ) * 1000),
        features_before := some A.cols, features_after := some A2.cols,
        confusion_matrix := some cm, error := none } :=
  train_pipeline_success_eq Xtr Xte ytr yte ext en red rn clf cn lib
    A B A2 B2 A3 B3 t1 t2 tr tf tp yp acc p rc f1v cm
    h1 h2 h3 h4 h5 h6 h7 h8 h9 h10

/-- Witness for the amended C8 at a concrete fully succeeding run with
extraction time 1, transform time 0, reduction time 0, fit time 3. -/
theorem c8_amended_witness :
    train_pipeline cXtr cXte cytr cyte extT1 "TF-IDF" none "None" clfT3 "SVM" mlibOK =
      { pipeline := "TF-IDF" ++ " → " ++ "None" ++ " → " ++ "SVM",
        extractor := "TF-IDF", reducer := "None", classifier := "SVM",
        status := "success",
        accuracy := some (9/10), precision := some (1/2), recall' := some (1/3),
        f1_score := some (1/4),
        train_time := some (1 + 0 + 0 + 3),
        inference_ms := some (4 / (cyte.length : ℚ) * 1000),
        features_before := some mTr.cols, features_after := some mTr.cols,
        confusion_matrix := some [[1, 0], [0, 1]], error := none } :=
  c8_success_fields_summed_time cXtr cXte cytr cyte extT1 "TF-IDF" none "None"
    clfT3 "SVM" mlibOK mTr mTe mTr mTe mTr mTe 1 0 0 3 4 ["a"]
    (9/10) (1/2) (1/3) (1/4) [[1, 0], [0, 1]]
    rfl rfl rfl rfl rfl rfl (by decide) rfl rfl rfl

/-! ### Claim C9 -/

/-- Inserting a record into a list keeps the records of any fixed
accuracy in their relative order: the inserted record lands in front of
the equal-accuracy block it is inserted into. -/
theorem filter_orderedInsert_key (q : ℚ) (a : RunRecord) (l : List RunRecord) :
    (l.orderedInsert accDescRel a).filter (fun x => accKey x == q) =
      if accKey a = q then a :: l.filter (fun x => accKey x == q)
      else l.filter (fun x => accKey x == q) := by
  induction l with
  | nil =>
    by_cases h : accKey a = q <;>
      simp [List.orderedInsert, List.filter_cons, List.filter_nil, h, beq_iff_eq]
  | cons b t ih =>
    by_cases hab : accDescRel a b
    · rw [List.orderedInsert, if_pos hab]
      by_cases ha : accKey a = q <;> simp [List.filter_cons, ha, beq_iff_eq]
    · rw [List.orderedInsert, if_neg hab]
      have hne : ¬ accKey a = accKey b := fun hEq => hab (le_of_eq hEq.symm)
      by_cases ha : accKey a = q <;> by_cases hb : accKey b = q
      · exact absurd (ha.trans hb.symm) hne
      · simp [List.filter_cons, ha, hb, ih, beq_iff_eq]
      · simp [List.filter_cons, ha, hb, ih, beq_iff_eq]
      · simp [List.filter_cons, ha, hb, ih, beq_iff_eq]

/-- Stability of the ranking: restricting to any fixed accuracy value,
the ranked sequence is the original sequence. -/
theorem filter_insertionSort_key (q : ℚ) (l : List RunRecord) :
    (l.insertionSort accDescRel).filter (fun x => accKey x == q) =
      l.filter (fun x => accKey x == q) := by
  induction l with
  | nil => rfl
  | cons a t ih =>
    rw [List.insertionSort, filter_orderedInsert_key, List.filter_cons]
    by_cases h : accKey a = q <;> simp [h, ih, beq_iff_eq]

/-- C9: the descending-by-accuracy ranking is a pure stable sort — every
adjacent pair is ordered by `accuracy` descending, records of equal
accuracy keep their original execution order, ranking an already ranked
list changes nothing (idempotence), and the ranking is a permutation of
its input. -/
theorem c9_rank_stable_descending (l : List RunRecord) :
    List.Chain' (fun a b => accKey b ≤ accKey a) (rankByAccuracyDesc l) ∧
    (∀ q : ℚ, (rankByAccuracyDesc l).filter (fun x => accKey x == q) =
      l.filter (fun x => accKey x == q)) ∧
    rankByAccuracyDesc (rankByAccuracyDesc l) = rankByAccuracyDesc l ∧
    (rankByAccuracyDesc l).Perm l :=
  ⟨List.Pairwise.chain' (List.sorted_insertionSort accDescRel l),
   fun q => filter_insertionSort_key q l,
   List.Sorted.insertionSort_eq (List.sorted_insertionSort accDescRel l),
   List.perm_insertionSort accDescRel l⟩

/-! ### Claim C10 -/

/-- C10: every record `compare_pipelines` returns has status `success`
and carries all metric and timing fields; conversely the record of any
failed combination has status `failed`, keeps the four identity fields,
carries the error message, has every metric/timing field absent, and is
excluded from the returned successful list. -/
theorem c10_record_field_invariants (Xtr Xte ytr yte : List String)
    (extractors : List (Extractor × String))
    (reducers : List (Option Reducer × String))
    (classifiers : List (Classifier × String))
    (lib : MetricsLib) :
    (∀ rec ∈ (compare_pipelines Xtr Xte ytr yte extractors reducers classifiers lib).1,
      rec.status = "success" ∧ rec.accuracy.isSome ∧ rec.precision.isSome ∧
      rec.recall'.isSome ∧ rec.f1_score.isSome ∧ rec.train_time.isSome ∧
      rec.inference_ms.isSome ∧ rec.features_before.isSome ∧
      rec.features_after.isSome ∧ rec.confusion_matrix.isSome) ∧
    ∀ (ext : Extractor) (en : String) (red : Option Reducer) (rn : String)
      (clf : Classifier) (cn : String) (msg : String),
      trainBody Xtr Xte ytr yte ext red rn clf cn lib = Except.error msg →
      (train_pipeline Xtr Xte ytr yte ext en red rn clf cn lib).status = "failed" ∧
      (train_pipeline Xtr Xte ytr yte ext en red rn clf cn lib).pipeline =
        en ++ " → " ++ rn ++ " → " ++ cn ∧
      (train_pipeline Xtr Xte ytr yte ext en red rn clf cn lib).extractor = en ∧
      (train_pipeline Xtr Xte ytr yte ext en red rn clf cn lib).reducer = rn ∧
      (train_pipeline Xtr Xte ytr yte ext en red rn clf cn lib).classifier = cn ∧
      (train_pipeline Xtr Xte ytr yte ext en red rn clf cn lib).error = some msg ∧
      (train_pipeline Xtr Xte ytr yte ext en red rn clf cn lib).accuracy = none ∧
      (train_pipeline Xtr Xte ytr yte ext en red rn clf cn lib).precision = none ∧
      (train_pipeline Xtr Xte ytr yte ext en red rn clf cn lib).recall' = none ∧
      (train_pipeline Xtr Xte ytr yte ext en red rn clf cn lib).f1_score = none ∧
      (train_pipeline Xtr Xte ytr yte ext en red rn clf cn lib).train_time = none ∧
      (train_pipeline Xtr Xte ytr yte ext en red rn clf cn lib).inference_ms = none ∧
      (train_pipeline Xtr Xte ytr yte ext en red rn clf cn lib).features_before = none ∧
      (train_pipeline Xtr Xte ytr yte ext en red rn clf cn lib).features_after = none ∧
      (train_pipeline Xtr Xte ytr yte ext en red rn clf cn lib).confusion_matrix = none ∧
      train_pipeline Xtr Xte ytr yte ext en red rn clf cn lib ∉
        (compare_pipelines Xtr Xte ytr yte extractors reducers classifiers lib).1 := by
  constructor
  · intro rec hrec
    obtain ⟨hmem, hbeq⟩ := List.mem_filter.1 hrec
    obtain ⟨e, _, r, _, c, _, rfl⟩ :=
      (mem_run_all Xtr Xte ytr yte extractors reducers classifiers lib).1 hmem
    have hst := eq_of_beq hbeq
    cases h : trainBody Xtr Xte ytr yte e.1 r.1 r.2 c.1 c.2 lib with
    | error msg =>
        rw [train_pipeline_error_eq Xtr Xte ytr yte e.1 e.2 r.1 r.2 c.1 c.2 lib msg h] at hst
        have hns : ("failed" : String) ≠ "success" := by decide
        exact absurd hst hns
    | ok d =>
        rw [train_pipeline_ok_eq Xtr Xte ytr yte e.1 e.2 r.1 r.2 c.1 c.2 lib d h]
        exact ⟨rfl, rfl, rfl, rfl, rfl, rfl, rfl, rfl, rfl, rfl⟩
  · intro ext en red rn clf cn msg h
    rw [train_pipeline_error_eq Xtr Xte ytr yte ext en red rn clf cn lib msg h]
    refine ⟨rfl, rfl, rfl, rfl, rfl, rfl, rfl, rfl, rfl, rfl, rfl, rfl, rfl, rfl, rfl, ?_⟩
    intro hmem
    have hst := eq_of_beq (List.mem_filter.1 hmem).2
    have hns : ("failed" : String) ≠ "success" := by decide
    exact absurd hst hns

/-- Witness for C10 at one succeeding and one failing combination. -/
theorem c10_witness :
    (train_pipeline cXtr cXte cytr cyte extOK "TF-IDF" none "None" clfOK "SVM" mlibOK).status =
      "success" ∧
    (train_pipeline cXtr cXte cytr cyte extBad "BoW" none "None" clfOK "SVM" mlibOK).status =
      "failed" :=
  ⟨((c10_record_field_invariants cXtr cXte cytr cyte cE cR cC1 mlibOK).1
      (train_pipeline cXtr cXte cytr cyte extOK "TF-IDF" none "None" clfOK "SVM" mlibOK)
      (List.Mem.head _)).1,
   ((c10_record_field_invariants cXtr cXte cytr cyte cE cR cC1 mlibOK).2
      extBad "BoW" none "None" clfOK "SVM" "boom" rfl).1⟩

end BBCPipeline
